import Mathlib

/-!
Verification development for the Lightsats client pages: the gift
composition form (`pages/tips/new`) and the claim page
(`pages/tips/[id]/claim`), together with the `PublicTip` projection type.

JavaScript numbers are modelled as `JSNum`: a rational together with the
three non-finite values `NaN`, `+Infinity` and `-Infinity` (negative zero
is not distinguished from zero).  The raw `amountString` text field is
modelled by its `parseFloat` image, which is again a `JSNum` (every use of
the string in the source goes through `parseFloat` or is written via
`Number.prototype.toString`, and `parseFloat (x.toString()) = x` for every
JS number `x`, including `NaN` and the infinities).
-/

namespace Lightsats

/-- A JavaScript number: a finite rational, `NaN`, or a signed infinity. -/
inductive JSNum where
  | num (q : ℚ)
  | nan
  | inf
  | negInf
deriving DecidableEq, Repr

namespace JSNum

/-- JS `isNaN`. -/
def isNaN : JSNum → Bool
  | nan => true
  | _ => false

/-- JS division `x / r` by a finite number `r` (`a / 0` is a signed
infinity for `a ≠ 0` and `NaN` for `a = 0`). -/
def divQ : JSNum → ℚ → JSNum
  | num a, r =>
    if r = 0 then (if a = 0 then nan else if 0 < a then inf else negInf)
    else num (a / r)
  | nan, _ => nan
  | inf, r => if r < 0 then negInf else inf
  | negInf, r => if r < 0 then inf else negInf

/-- JS multiplication `x * r` by a finite number `r` (`±Infinity * 0` is
`NaN`). -/
def mulQ : JSNum → ℚ → JSNum
  | num a, r => num (a * r)
  | nan, _ => nan
  | inf, r => if r = 0 then nan else if 0 < r then inf else negInf
  | negInf, r => if r = 0 then nan else if 0 < r then negInf else inf

/-- JS `Math.round`: for finite arguments `⌊x + 1/2⌋` (half-up, toward
`+∞`); `NaN` and the infinities map to themselves. -/
def round : JSNum → JSNum
  | num a => num ((⌊a + 1/2⌋ : ℤ) : ℚ)
  | x => x

/-- JS `<` on numbers: false whenever either side is `NaN`. -/
def lt : JSNum → JSNum → Bool
  | nan, _ => false
  | _, nan => false
  | num a, num b => decide (a < b)
  | num _, inf => true
  | num _, negInf => false
  | inf, _ => false
  | negInf, negInf => false
  | negInf, _ => true

/-- JS strict equality `===` on numbers: `NaN === x` is false for every
`x`, `NaN` included. -/
def eqb : JSNum → JSNum → Bool
  | nan, _ => false
  | _, nan => false
  | num a, num b => decide (a = b)
  | inf, inf => true
  | negInf, negInf => true
  | _, _ => false

/-- JS `<=` on numbers (used only to state properties): `lt` or `eqb`. -/
def leb (a b : JSNum) : Bool := lt a b || eqb a b

/-- JS `Math.max` of two numbers: `NaN` absorbs. -/
def max : JSNum → JSNum → JSNum
  | nan, _ => nan
  | _, nan => nan
  | num a, num b => num (Max.max a b)
  | inf, _ => inf
  | _, inf => inf
  | num a, negInf => num a
  | negInf, x => x

end JSNum

/-- Truthiness of the possibly-absent exchange rate
`exchangeRates?.[currency]`: JS treats `undefined` and `0` as falsy. -/
def rateTruthy : Option ℚ → Bool
  | none => false
  | some r => decide (r ≠ 0)

/-! ## Claim page (`ClaimTipPage`) -/

/-- The `user` object inside a next-auth session. -/
structure SessionUser where
  id : String
deriving DecidableEq, Repr

/-- An authenticated next-auth session (`useSession().data`). -/
structure Session where
  user : SessionUser
deriving DecidableEq, Repr

/-- The `PublicTip` projection (`types/PublicTip`): the picked `Tip`
fields plus the derived `hasClaimed` flag and the picked tipper fields. -/
structure PublicTip where
  amount : JSNum
  tipperId : String
  tippeeId : Option String
  currency : String
  note : Option String
  hasClaimed : Bool
  tipperName : Option String
  tipperTwitterUsername : Option String
deriving DecidableEq, Repr

/-- `isTipper = session && publicTip && session.user.id === publicTip.tipperId`
(truthiness of the chain reduced to a boolean). -/
def isTipper (session : Option Session) (publicTip : Option PublicTip) : Bool :=
  match session, publicTip with
  | some s, some t => decide (s.user.id = t.tipperId)
  | _, _ => false

/-- `canClaim = publicTip && !publicTip.hasClaimed && session && !isTipper`. -/
def canClaim (session : Option Session) (publicTip : Option PublicTip) : Bool :=
  match publicTip with
  | none => false
  | some t => !t.hasClaimed && session.isSome && !(isTipper session publicTip)

end Lightsats

namespace Lightsats

/-- One observable action of the claim page's auto-claim effect. -/
inductive ClaimEvent where
  | setLatch
  | claimRequest
  | refetchPublicTip
  | alert (msg : String)
deriving DecidableEq, Repr

/-- The alert text shown when the claim POST returns a non-OK status. -/
def claimAlertMsg (statusText : String) : String :=
  "Failed to claim tip: " ++ statusText ++ ". Please refresh the page to try again."

/-- The environment visible to one run of the auto-claim effect: the two
external data sources, plus the outcome the claim POST would have
(`fetchOk` with the response's `statusText`). -/
structure ClaimEnv where
  session : Option Session
  publicTip : Option PublicTip
  fetchOk : Bool
  statusText : String
deriving DecidableEq, Repr

/-- Local state of the claim page: the `hasClaimed` latch plus the trace
of observable actions performed so far. -/
structure ClaimPageState where
  hasClaimed : Bool
  trace : List ClaimEvent
deriving DecidableEq, Repr

/-- One run of the auto-claim `React.useEffect`: if `canClaim && !hasClaimed`,
set the latch, POST the claim, then either re-fetch the projection (OK
response) or alert (non-OK); otherwise do nothing. -/
def claimEffect (env : ClaimEnv) (s : ClaimPageState) : ClaimPageState :=
  if canClaim env.session env.publicTip && !s.hasClaimed then
    { hasClaimed := true
      trace := s.trace ++ [ClaimEvent.setLatch, ClaimEvent.claimRequest] ++
        (if env.fetchOk then [ClaimEvent.refetchPublicTip]
         else [ClaimEvent.alert (claimAlertMsg env.statusText)]) }
  else s

/-- Fold the effect over a sequence of re-evaluations within one page
lifetime. -/
def runClaimEffects (envs : List ClaimEnv) (s : ClaimPageState) : ClaimPageState :=
  envs.foldl (fun st e => claimEffect e st) s

/-- Page state at mount: latch unset, nothing performed. -/
def initialClaimState : ClaimPageState := ⟨false, []⟩

/-- An environment in which the eligibility predicate holds. -/
def claimableEnv (e : ClaimEnv) : Bool := canClaim e.session e.publicTip

/-! ## Gift composition form (`NewTip`) -/

/-- Which unit the amount input is currently denominated in. -/
inductive InputMethod where
  | fiat
  | sats
deriving DecidableEq, Repr

/-- `ExpiryUnitValues = ["minutes", "hours", "days"]`. -/
inductive ExpiryUnit where
  | minutes
  | hours
  | days
deriving DecidableEq, Repr

/-- Modelled from the spec: the configuration constants from
`lib/constants` (`MIN_TIP_SATS`, `MAX_TIP_SATS`, `MINIMUM_FEE_SATS`,
`FEE_PERCENT`) are consumed but not defined in the sources shown; the
spec describes them only as the configured minimum/maximum transferable
amount, minimum absolute fee (whole base units) and fee percentage, so
they are kept abstract as a parameter record. -/
structure TipConstants where
  MIN_TIP_SATS : ℕ
  MAX_TIP_SATS : ℕ
  MINIMUM_FEE_SATS : ℕ
  FEE_PERCENT : ℚ
deriving DecidableEq, Repr

/-- Modelled from the spec: `getSatsAmount` lives in `lib/utils`, which is
not among the sources shown; the spec defines the conversion to base
units as `toBaseUnits(fiatAmount, rate) = fiatAmount / rate`. -/
def getSatsAmount (fiatAmount : JSNum) (rate : ℚ) : JSNum :=
  fiatAmount.divQ rate

/-- Modelled from the spec: `getFiatAmount` lives in `lib/utils`, which is
not among the sources shown; the spec defines the conversion to fiat as
`toFiat(baseAmount, rate) = baseAmount * rate`. -/
def getFiatAmount (baseAmount : JSNum) (rate : ℚ) : JSNum :=
  baseAmount.mulQ rate

/-- Modelled from the spec: `calculateFee` lives in `lib/utils`, which is
not among the sources shown; the spec defines it as
`computeFee(baseAmount) = max(MINIMUM_FEE, baseAmount * FEE_PERCENT / 100)`,
rounded to the nearest whole base unit. -/
def calculateFee (c : TipConstants) (amount : JSNum) : JSNum :=
  JSNum.round (JSNum.max (JSNum.num c.MINIMUM_FEE_SATS)
    ((amount.mulQ c.FEE_PERCENT).divQ 100))

/-- The fee displayed next to the amount (`watchedAmountFee`):
`calculateFee` of the base-unit amount when the rate is truthy, else `0`. -/
def watchedAmountFee (c : TipConstants) (rate : Option ℚ) (inputMethod : InputMethod)
    (amount : JSNum) : JSNum :=
  match rate with
  | some r =>
    if r ≠ 0 then
      calculateFee c (if inputMethod = InputMethod.fiat then getSatsAmount amount r else amount)
    else JSNum.num 0
  | none => JSNum.num 0

/-- The amount-related fragment of the form state: the current input
mode, the numeric `amount` field, and the raw `amountString` text,
represented by its `parseFloat` image. -/
structure AmountFormState where
  inputMethod : InputMethod
  amount : JSNum
  amountString : JSNum
deriving DecidableEq, Repr

/-- The `React.useEffect` keyed on `watchedAmountString`: parse the raw
text and write it to `amount` unless the parse is `NaN`. -/
def syncAmount (s : AmountFormState) : AmountFormState :=
  if s.amountString.isNaN then s else { s with amount := s.amountString }

/-- `toggleInputMethod`: when the exchange rate is truthy, flip the input
mode and rewrite `amountString` with the current amount re-expressed in
the other unit (fiat values rounded to two decimals); otherwise do
nothing. -/
def toggleInputMethod (rate : Option ℚ) (s : AmountFormState) : AmountFormState :=
  match rate with
  | some r =>
    if r ≠ 0 then
      { inputMethod := if s.inputMethod = InputMethod.fiat then InputMethod.sats else InputMethod.fiat
        amount := s.amount
        amountString :=
          if s.inputMethod = InputMethod.fiat then getSatsAmount s.amount r
          else (JSNum.round ((getFiatAmount s.amount r).mulQ 100)).divQ 100 }
    else s
  | none => s

/-- A toggle click followed by the reactive `amountString` sync effect,
which re-runs exactly when the watched string changed. -/
def toggleStep (rate : Option ℚ) (s : AmountFormState) : AmountFormState :=
  let t := toggleInputMethod rate s
  if t.amountString ≠ s.amountString then syncAmount t else t

/-! ## Gift submission (`onSubmit`) -/

/-- The `NewTipFormData` record passed to `onSubmit` (the raw
`amountString` mirror is modelled separately in `AmountFormState`; the
optional text fields have no default value, so absence is `none`). -/
structure NewTipFormData where
  amount : JSNum
  currency : String
  note : Option String
  expiresIn : ℚ
  expiryUnit : ExpiryUnit
  tippeeName : Option String
  tippeeLocale : String
deriving DecidableEq, Repr

/-- The validation failures thrown by `onSubmit`, in source order. -/
inductive TipError where
  | ratesNotLoaded
  | alreadySubmitting
  | invalidAmount
  | tooSmall
  | tooLarge (maxSats : ℕ)
  | notWhole
deriving DecidableEq, Repr

/-- The `Error` message carried by each validation failure. -/
def TipError.message : TipError → String
  | TipError.ratesNotLoaded => "Exchange rates not loaded"
  | TipError.alreadySubmitting => "Already submitting"
  | TipError.invalidAmount => "Invalid tip amount"
  | TipError.tooSmall => "Tip amount is too small"
  | TipError.tooLarge m =>
      "Tip amount is too large. Please use a value no more than " ++ toString m ++ " satoshis"
  | TipError.notWhole => "sat amount must be a whole value"

/-- Milliseconds per expiry unit. -/
def expiryUnitMs : ExpiryUnit → ℚ
  | ExpiryUnit.minutes => 60000
  | ExpiryUnit.hours => 3600000
  | ExpiryUnit.days => 86400000

/-- Modelled from the spec: the `date-fns` `add` call is an external
library; the spec states the expiry is computed as now plus `expiresIn`
in the chosen unit (minutes/hours/days).  Timestamps are milliseconds
since the epoch. -/
def addDuration (now : ℚ) (amount : ℚ) (unit : ExpiryUnit) : ℚ :=
  now + amount * expiryUnitMs unit

/-- The JSON body POSTed to `/api/tipper/tips` (`CreateTipRequest`);
`none` stands for an `undefined` field, which `JSON.stringify` omits. -/
structure CreateTipRequest where
  amount : JSNum
  currency : String
  note : Option String
  expiry : ℚ
  tippeeName : Option String
  tippeeLocale : String
deriving DecidableEq, Repr

/-- Construction of the request body inside `onSubmit`: the optional
text fields are kept only when non-empty (`data.note?.length ? data.note
: undefined`), the expiry is `add(new Date(), {[expiryUnit]: expiresIn})`. -/
def createTipRequest (satsAmount : JSNum) (data : NewTipFormData) (now : ℚ) :
    CreateTipRequest :=
  { amount := satsAmount
    currency := data.currency
    note :=
      match data.note with
      | some s => if s.length ≠ 0 then some s else none
      | none => none
    expiry := addDuration now data.expiresIn data.expiryUnit
    tippeeName :=
      match data.tippeeName with
      | some s => if s.length ≠ 0 then some s else none
      | none => none
    tippeeLocale := data.tippeeLocale }

/-- The base-unit amount submitted: converted from fiat when the input
mode is fiat, taken as-is otherwise. -/
def submittedSatsAmount (rate : ℚ) (inputMethod : InputMethod) (amount : JSNum) : JSNum :=
  if inputMethod = InputMethod.fiat then getSatsAmount amount rate else amount

/-- The guard sequence at the head of `onSubmit`, translated check for
check in source order; on success it returns the validated base-unit
amount. -/
def validateTip (c : TipConstants) (rate : Option ℚ) (isSubmitting : Bool)
    (inputMethod : InputMethod) (amount : JSNum) : Except TipError JSNum :=
  match rate with
  | none => Except.error TipError.ratesNotLoaded
  | some r =>
    if r = 0 then Except.error TipError.ratesNotLoaded
    else if isSubmitting then Except.error TipError.alreadySubmitting
    else
      let sats := submittedSatsAmount r inputMethod amount
      if sats.isNaN then Except.error TipError.invalidAmount
      else if JSNum.lt sats (JSNum.num c.MIN_TIP_SATS) then Except.error TipError.tooSmall
      else if JSNum.lt (JSNum.num c.MAX_TIP_SATS) sats then
        Except.error (TipError.tooLarge c.MAX_TIP_SATS)
      else if !(JSNum.eqb (JSNum.round sats) sats) then Except.error TipError.notWhole
      else Except.ok sats

/-- Outcome of the creation `fetch`: an OK response carrying the created
tip's id, a non-OK response carrying its `statusText`, or a thrown
error (network failure or a later failure inside the `try` block). -/
inductive FetchOutcome where
  | ok (tipId : String)
  | notOk (statusText : String)
  | threw
deriving DecidableEq, Repr

/-- One observable action of the submission block. -/
inductive TipEvent where
  | setSubmitting (b : Bool)
  | fetchCreateTip (req : CreateTipRequest)
  | toastSuccess (msg : String)
  | toastError (msg : String)
  | navigate (route : String)
deriving DecidableEq, Repr

/-- Modelled from the spec: `Routes.tips` (`lib/Routes`) is not among the
sources shown; the spec says only that the client navigates to the
created Gift's detail view, so the path prefix is kept symbolic. -/
def routesTips : String := "/tips"

/-- The async block of `onSubmit` after validation passed: set the
submitting flag, POST the request, branch on the outcome (success toast
and navigation / error toast with the status text / generic error
toast), and clear the submitting flag in every case. -/
def submitBlock (req : CreateTipRequest) (outcome : FetchOutcome) : List TipEvent :=
  [TipEvent.setSubmitting true, TipEvent.fetchCreateTip req] ++
  (match outcome with
   | FetchOutcome.ok tipId =>
       [TipEvent.toastSuccess "Tip created", TipEvent.navigate (routesTips ++ "/" ++ tipId)]
   | FetchOutcome.notOk st => [TipEvent.toastError ("Failed to create tip: " ++ st)]
   | FetchOutcome.threw => [TipEvent.toastError "Tip creation failed. Please try again."]) ++
  [TipEvent.setSubmitting false]

/-- The whole of `onSubmit`: validation, then the submission block on
the constructed request.  A validation failure is the thrown `Error`;
no event (in particular no network call) is performed in that case. -/
def onSubmit (c : TipConstants) (rate : Option ℚ) (isSubmitting : Bool)
    (inputMethod : InputMethod) (data : NewTipFormData) (now : ℚ)
    (outcome : FetchOutcome) : Except TipError (List TipEvent) :=
  match validateTip c rate isSubmitting inputMethod data.amount with
  | Except.error e => Except.error e
  | Except.ok sats => Except.ok (submitBlock (createTipRequest sats data now) outcome)

/-- The events actually performed: none when `onSubmit` threw. -/
def eventsOf : Except TipError (List TipEvent) → List TipEvent
  | Except.error _ => []
  | Except.ok l => l

/-! ## Helper lemmas -/

theorem JSNum.leb_num_iff (a b : ℚ) :
    JSNum.leb (JSNum.num a) (JSNum.num b) = true ↔ a ≤ b := by
  simp [JSNum.leb, JSNum.lt, JSNum.eqb, le_iff_lt_or_eq]

theorem claimEffect_latched (e : ClaimEnv) (tr : List ClaimEvent) :
    claimEffect e ⟨true, tr⟩ = ⟨true, tr⟩ := by
  simp [claimEffect]

theorem runClaimEffects_latched (envs : List ClaimEnv) (tr : List ClaimEvent) :
    runClaimEffects envs ⟨true, tr⟩ = ⟨true, tr⟩ := by
  induction envs with
  | nil => rfl
  | cons e rest ih =>
    show runClaimEffects rest (claimEffect e ⟨true, tr⟩) = _
    rw [claimEffect_latched, ih]

theorem canClaim_of_isTipper (session : Option Session) (publicTip : Option PublicTip)
    (h : isTipper session publicTip = true) :
    canClaim session publicTip = false := by
  cases publicTip with
  | none => rfl
  | some t =>
    cases session with
    | none => simp [isTipper] at h
    | some s => simp [canClaim, isTipper] at h ⊢ ; intro _ ; exact h

theorem toggleInputMethod_amount_eq (rate : Option ℚ) (s : AmountFormState) :
    (toggleInputMethod rate s).amount = s.amount := by
  cases rate with
  | none => rfl
  | some r =>
    by_cases h : r = 0 <;> simp [toggleInputMethod, h]

theorem toggleStep_eq_sync_of_consistent (rate : Option ℚ) (s : AmountFormState)
    (h : s.amount = s.amountString) :
    toggleStep rate s = syncAmount (toggleInputMethod rate s) := by
  show (if (toggleInputMethod rate s).amountString ≠ s.amountString
        then syncAmount (toggleInputMethod rate s) else toggleInputMethod rate s) = _
  split_ifs with hne
  · rfl
  · push_neg at hne
    have hamt : (toggleInputMethod rate s).amount = (toggleInputMethod rate s).amountString := by
      rw [toggleInputMethod_amount_eq, h, ← hne]
    cases htog : toggleInputMethod rate s with
    | mk im a astr =>
      rw [htog] at hamt
      simp at hamt
      simp [syncAmount, hamt]

/-! ## Claim theorems -/

/-- C3: the claim-eligibility predicate `canClaim` holds exactly when the
public projection has loaded, its `hasClaimed` flag is false, an
authenticated session exists, and the session's user id differs from the
projection's `tipperId`. -/
theorem canClaim_iff (session : Option Session) (publicTip : Option PublicTip) :
    canClaim session publicTip = true ↔
      ∃ t s, publicTip = some t ∧ session = some s ∧
        t.hasClaimed = false ∧ s.user.id ≠ t.tipperId := by
  cases publicTip with
  | none => simp [canClaim]
  | some t =>
    cases session with
    | none => simp [canClaim]
    | some s =>
      simp [canClaim, isTipper]

/-- C9: when the exchange rate for the selected currency has not loaded,
the input-mode toggle is a complete no-op, both on its own and followed
by the reactive `amountString` sync effect: input mode, numeric amount
and raw text all keep their previous values. -/
theorem toggleInputMethod_noop_of_no_rate (s : AmountFormState) :
    toggleInputMethod none s = s ∧ toggleStep none s = s := by
  constructor
  · rfl
  · simp [toggleStep, toggleInputMethod]

/-- C10: the `amountString` sync effect updates the numeric amount
exactly when the parse is not `NaN`: a `NaN` parse leaves the previous
amount in place, while a parse yielding `Infinity` (not excluded by the
guard) does overwrite the amount. -/
theorem syncAmount_nan_guard (s : AmountFormState) :
    (∀ p : JSNum, (syncAmount { s with amountString := p }).amount =
      (if p.isNaN then s.amount else p)) ∧
    (syncAmount { s with amountString := JSNum.nan }).amount = s.amount ∧
    (syncAmount { s with amountString := JSNum.inf }).amount = JSNum.inf := by
  refine ⟨?_, rfl, rfl⟩
  intro p
  cases p <;> simp [syncAmount, JSNum.isNaN]

/-- C2: over any sequence of re-evaluations of the auto-claim effect
within one page lifetime, if no evaluation ever sees the eligibility
predicate true the page state never changes; otherwise the trace is
exactly one latch-set followed by exactly one claim request — issued at
the first claimable evaluation — followed by a projection re-fetch on an
OK response or a single blocking alert on a non-OK response, the latch
ends (and stays) set, and no retry ever happens. -/
theorem autoClaim_fires_exactly_once (envs : List ClaimEnv) :
    match envs.find? claimableEnv with
    | none => runClaimEffects envs initialClaimState = initialClaimState
    | some e =>
        (runClaimEffects envs initialClaimState).hasClaimed = true ∧
        (runClaimEffects envs initialClaimState).trace =
          [ClaimEvent.setLatch, ClaimEvent.claimRequest] ++
            (if e.fetchOk then [ClaimEvent.refetchPublicTip]
             else [ClaimEvent.alert (claimAlertMsg e.statusText)]) := by
  induction envs with
  | nil => simp [runClaimEffects]
  | cons e rest ih =>
    by_cases h : claimableEnv e
    · rw [List.find?_cons_of_pos _ h]
      have hfire : claimEffect e initialClaimState =
          ⟨true, [ClaimEvent.setLatch, ClaimEvent.claimRequest] ++
            (if e.fetchOk then [ClaimEvent.refetchPublicTip]
             else [ClaimEvent.alert (claimAlertMsg e.statusText)])⟩ := by
        simp only [claimEffect, initialClaimState, claimableEnv] at h ⊢
        simp [h]
      have hrun : runClaimEffects (e :: rest) initialClaimState =
          ⟨true, [ClaimEvent.setLatch, ClaimEvent.claimRequest] ++
            (if e.fetchOk then [ClaimEvent.refetchPublicTip]
             else [ClaimEvent.alert (claimAlertMsg e.statusText)])⟩ := by
        show runClaimEffects rest (claimEffect e initialClaimState) = _
        rw [hfire, runClaimEffects_latched]
      exact ⟨by rw [hrun], by rw [hrun]⟩
    · rw [List.find?_cons_of_neg _ h]
      have hskip : claimEffect e initialClaimState = initialClaimState := by
        simp only [claimableEnv] at h
        simp [claimEffect, h, initialClaimState]
      have hrun : runClaimEffects (e :: rest) initialClaimState =
          runClaimEffects rest (claimEffect e initialClaimState) := rfl
      rw [hrun, hskip]
      exact ih

/-- C4: whenever every evaluation of the effect sees a session whose user
id equals the projection's `tipperId` (the viewer is the tip's creator),
the claim page state is left entirely unchanged — no claim request is
ever issued — whatever the projection's `hasClaimed` flag and the local
latch hold. -/
theorem tipper_never_claims (envs : List ClaimEnv) (s : ClaimPageState)
    (h : ∀ e ∈ envs, isTipper e.session e.publicTip = true) :
    runClaimEffects envs s = s := by
  induction envs generalizing s with
  | nil => rfl
  | cons e rest ih =>
    have he : isTipper e.session e.publicTip = true := h e (List.mem_cons_self e rest)
    have hcc : canClaim e.session e.publicTip = false := canClaim_of_isTipper _ _ he
    have hskip : claimEffect e s = s := by simp [claimEffect, hcc]
    show runClaimEffects rest (claimEffect e s) = s
    rw [hskip]
    exact ih s (fun e' he' => h e' (List.mem_cons_of_mem _ he'))

/-- Closed witness for C4: a concrete creator-viewing environment with
the latch unset and `hasClaimed = false` issues no claim request. -/
theorem tipper_never_claims_witness :
    runClaimEffects
      [⟨some ⟨⟨"alice"⟩⟩,
        some ⟨JSNum.num 100, "alice", none, "USD", none, false, none, none⟩, true, "OK"⟩]
      initialClaimState = initialClaimState :=
  tipper_never_claims _ initialClaimState (by decide)

/-- C5: the submission block is strictly sequential — the submitting
flag is set first (before the network call), the creation request is the
very next action, and the flag is cleared as the last action on every
outcome; an OK response (and only an OK response) navigates to the
created tip's detail view after a success toast, a non-OK response
surfaces the HTTP status text in an error toast with no navigation, and
a thrown error produces the generic error toast with no navigation. -/
theorem submitBlock_sequential (req : CreateTipRequest) (outcome : FetchOutcome) :
    (submitBlock req outcome).head? = some (TipEvent.setSubmitting true) ∧
    (submitBlock req outcome)[1]? = some (TipEvent.fetchCreateTip req) ∧
    (submitBlock req outcome).getLast? = some (TipEvent.setSubmitting false) ∧
    (match outcome with
     | FetchOutcome.ok tipId =>
         TipEvent.toastSuccess "Tip created" ∈ submitBlock req outcome ∧
         TipEvent.navigate (routesTips ++ "/" ++ tipId) ∈ submitBlock req outcome
     | FetchOutcome.notOk st =>
         TipEvent.toastError ("Failed to create tip: " ++ st) ∈ submitBlock req outcome ∧
         ∀ r, TipEvent.navigate r ∉ submitBlock req outcome
     | FetchOutcome.threw =>
         TipEvent.toastError "Tip creation failed. Please try again." ∈ submitBlock req outcome ∧
         ∀ r, TipEvent.navigate r ∉ submitBlock req outcome) := by
  cases outcome <;> simp [submitBlock]

/-- Closed witness for C5: on a concrete non-OK outcome the status text
is surfaced and no navigation event occurs. -/
theorem submitBlock_sequential_witness :
    TipEvent.toastError ("Failed to create tip: " ++ "Bad Request") ∈
      submitBlock ⟨JSNum.num 100, "USD", none, 0, none, "en"⟩ (FetchOutcome.notOk "Bad Request") ∧
    TipEvent.navigate (routesTips ++ "/" ++ "x") ∉
      submitBlock ⟨JSNum.num 100, "USD", none, 0, none, "en"⟩ (FetchOutcome.notOk "Bad Request") := by
  have h := submitBlock_sequential ⟨JSNum.num 100, "USD", none, 0, none, "en"⟩
    (FetchOutcome.notOk "Bad Request")
  exact ⟨h.2.2.2.1, h.2.2.2.2 _⟩

/-- C7: with a loaded positive rate and the input already denominated in
base units, the displayed fee is exactly
`round (max MINIMUM_FEE_SATS (amount * FEE_PERCENT / 100))`, and for
every non-negative finite amount this fee is at least
`MINIMUM_FEE_SATS`. -/
theorem watchedAmountFee_spec (c : TipConstants) (r q : ℚ) (hr : 0 < r) :
    watchedAmountFee c (some r) InputMethod.sats (JSNum.num q) =
      JSNum.round (JSNum.max (JSNum.num c.MINIMUM_FEE_SATS)
        (((JSNum.num q).mulQ c.FEE_PERCENT).divQ 100)) ∧
    (0 ≤ q → JSNum.leb (JSNum.num c.MINIMUM_FEE_SATS)
        (watchedAmountFee c (some r) InputMethod.sats (JSNum.num q)) = true) := by
  have hfee : watchedAmountFee c (some r) InputMethod.sats (JSNum.num q) =
      JSNum.round (JSNum.max (JSNum.num c.MINIMUM_FEE_SATS)
        (((JSNum.num q).mulQ c.FEE_PERCENT).divQ 100)) := by
    simp [watchedAmountFee, calculateFee, hr.ne']
  refine ⟨hfee, fun _ => ?_⟩
  rw [hfee]
  have h100 : (100 : ℚ) ≠ 0 := by norm_num
  simp [JSNum.mulQ, JSNum.divQ, JSNum.max, JSNum.round, h100]
  rw [JSNum.leb_num_iff]
  have hfloor : (c.MINIMUM_FEE_SATS : ℤ) ≤
      ⌊Max.max (c.MINIMUM_FEE_SATS : ℚ) (q * c.FEE_PERCENT / 100) + 2⁻¹⌋ := by
    rw [Int.le_floor]
    have := le_max_left (c.MINIMUM_FEE_SATS : ℚ) (q * c.FEE_PERCENT / 100)
    push_cast
    linarith
  exact_mod_cast hfloor

/-- Closed witness for C7: with rate 1, a 100-sat amount, 1% fee and a
10-sat minimum the displayed fee is at least the minimum. -/
theorem watchedAmountFee_spec_witness :
    JSNum.leb (JSNum.num (10 : ℕ))
      (watchedAmountFee ⟨1, 1000000, 10, 1⟩ (some 1) InputMethod.sats (JSNum.num 100)) = true :=
  (watchedAmountFee_spec ⟨1, 1000000, 10, 1⟩ 1 100 (by norm_num)).2 (by norm_num)

/-- C8: in the POSTed creation body the `note` and `tippeeName` fields
are present exactly when the corresponding form field is a non-empty
string (and then carry that string verbatim), while `amount`, `currency`,
`expiry = now + expiresIn · (ms per chosen unit)` and `tippeeLocale` are
always present. -/
theorem createTipRequest_fields (sats : JSNum) (data : NewTipFormData) (now : ℚ) :
    (createTipRequest sats data now).amount = sats ∧
    (createTipRequest sats data now).currency = data.currency ∧
    (createTipRequest sats data now).tippeeLocale = data.tippeeLocale ∧
    (createTipRequest sats data now).expiry =
      now + data.expiresIn * expiryUnitMs data.expiryUnit ∧
    ((createTipRequest sats data now).note.isSome = true ↔
      ∃ s, data.note = some s ∧ s.length ≠ 0) ∧
    (∀ s, data.note = some s → s.length ≠ 0 →
      (createTipRequest sats data now).note = some s) ∧
    ((createTipRequest sats data now).tippeeName.isSome = true ↔
      ∃ s, data.tippeeName = some s ∧ s.length ≠ 0) ∧
    (∀ s, data.tippeeName = some s → s.length ≠ 0 →
      (createTipRequest sats data now).tippeeName = some s) := by
  refine ⟨rfl, rfl, rfl, rfl, ?_, ?_, ?_, ?_⟩ <;>
    simp only [createTipRequest]
  · cases hn : data.note with
    | none => simp
    | some s =>
      by_cases hlen : s.length ≠ 0 <;> simp [hlen]
  · intro s hs hlen
    rw [hs]
    simp [hlen]
  · cases hn : data.tippeeName with
    | none => simp
    | some s =>
      by_cases hlen : s.length ≠ 0 <;> simp [hlen]
  · intro s hs hlen
    rw [hs]
    simp [hlen]

/-- Closed witness for C8: a concrete form with a non-empty note and an
empty recipient name maps to a body with the note kept and the name
omitted. -/
theorem createTipRequest_fields_witness :
    (createTipRequest (JSNum.num 21) ⟨JSNum.num 21, "USD", some "hi", 3, ExpiryUnit.days, some "", "en"⟩ 0).note = some "hi" ∧
    ((createTipRequest (JSNum.num 21) ⟨JSNum.num 21, "USD", some "hi", 3, ExpiryUnit.days, some "", "en"⟩ 0).tippeeName.isSome = true →
      False) := by
  have h := createTipRequest_fields (JSNum.num 21)
    ⟨JSNum.num 21, "USD", some "hi", 3, ExpiryUnit.days, some "", "en"⟩ 0
  refine ⟨h.2.2.2.2.2.1 "hi" rfl (by decide), fun hc => ?_⟩
  obtain ⟨s, hs, hlen⟩ := (h.2.2.2.2.2.2.1).mp hc
  cases hs
  exact hlen rfl

/-- C6: starting from a consistent fiat-mode state holding the value `v`
with a loaded positive exchange rate, toggling the input mode twice
(fiat → base units → fiat, each toggle followed by the reactive
`amountString` sync) returns to fiat mode with the amount and the text
both equal to `v` rounded to two decimal places; when `v` already has at
most two decimal places the original value is recovered exactly. -/
theorem toggle_twice_roundtrip (v r : ℚ) (hr : 0 < r) :
    toggleStep (some r) (toggleStep (some r) ⟨InputMethod.fiat, JSNum.num v, JSNum.num v⟩) =
      ⟨InputMethod.fiat, JSNum.num (((⌊v * 100 + 1/2⌋ : ℤ) : ℚ) / 100),
        JSNum.num (((⌊v * 100 + 1/2⌋ : ℤ) : ℚ) / 100)⟩ ∧
    (∀ k : ℤ, v = (k : ℚ) / 100 →
      toggleStep (some r) (toggleStep (some r) ⟨InputMethod.fiat, JSNum.num v, JSNum.num v⟩) =
        ⟨InputMethod.fiat, JSNum.num v, JSNum.num v⟩) := by
  have hr' : r ≠ 0 := hr.ne'
  have h100 : (100 : ℚ) ≠ 0 := by norm_num
  have hstep1 : toggleStep (some r) ⟨InputMethod.fiat, JSNum.num v, JSNum.num v⟩ =
      ⟨InputMethod.sats, JSNum.num (v / r), JSNum.num (v / r)⟩ := by
    rw [toggleStep_eq_sync_of_consistent (some r) _ rfl]
    simp [toggleInputMethod, getSatsAmount, JSNum.divQ, syncAmount, JSNum.isNaN, hr']
  have hstep2 : toggleStep (some r) ⟨InputMethod.sats, JSNum.num (v / r), JSNum.num (v / r)⟩ =
      ⟨InputMethod.fiat, JSNum.num (((⌊v * 100 + 1/2⌋ : ℤ) : ℚ) / 100),
        JSNum.num (((⌊v * 100 + 1/2⌋ : ℤ) : ℚ) / 100)⟩ := by
    rw [toggleStep_eq_sync_of_consistent (some r) _ rfl]
    have hvr : v / r * r = v := div_mul_cancel₀ v hr'
    simp [toggleInputMethod, getFiatAmount, JSNum.mulQ, JSNum.divQ, JSNum.round,
      syncAmount, JSNum.isNaN, hr', h100, hvr]
  rw [hstep1, hstep2]
  refine ⟨rfl, fun k hk => ?_⟩
  have hfloor : ⌊v * 100 + 1/2⌋ = k := by
    rw [hk, div_mul_cancel₀ _ h100]
    rw [show ((k : ℚ) + 1/2) = 1/2 + (k : ℚ) by ring, Int.floor_add_int]
    norm_num
  rw [hfloor, hk]

/-- Closed witness for C6: with rate 2 and starting fiat value 1.5 (two
decimal places), toggling twice returns exactly to 1.5. -/
theorem toggle_twice_roundtrip_witness :
    toggleStep (some 2) (toggleStep (some 2)
        ⟨InputMethod.fiat, JSNum.num (3/2), JSNum.num (3/2)⟩) =
      ⟨InputMethod.fiat, JSNum.num (3/2), JSNum.num (3/2)⟩ :=
  (toggle_twice_roundtrip (3/2) 2 (by norm_num)).2 150 (by norm_num)

/-- C1: the client-side preconditions of `onSubmit` are checked in
exactly the source order — rates loaded, not already submitting, the
base-unit amount not `NaN`, at least the configured minimum, at most the
configured maximum, a whole number of base units — each check firing
only when every earlier check passed and raising its own error (the six
errors are pairwise distinct, and the "too large" message embeds the
configured maximum); whenever any check fails, `onSubmit` throws
synchronously and performs no event at all, in particular no network
call. -/
theorem onSubmit_validation_order (c : TipConstants) (rate : Option ℚ) (sub : Bool)
    (im : InputMethod) (data : NewTipFormData) (now : ℚ) (outcome : FetchOutcome) :
    (rateTruthy rate = false →
      onSubmit c rate sub im data now outcome = Except.error TipError.ratesNotLoaded) ∧
    (rateTruthy rate = true → sub = true →
      onSubmit c rate sub im data now outcome = Except.error TipError.alreadySubmitting) ∧
    (∀ r, rate = some r → r ≠ 0 → sub = false →
      (((submittedSatsAmount r im data.amount).isNaN = true →
        onSubmit c rate sub im data now outcome = Except.error TipError.invalidAmount) ∧
      ((submittedSatsAmount r im data.amount).isNaN = false →
        JSNum.lt (submittedSatsAmount r im data.amount) (JSNum.num c.MIN_TIP_SATS) = true →
        onSubmit c rate sub im data now outcome = Except.error TipError.tooSmall) ∧
      ((submittedSatsAmount r im data.amount).isNaN = false →
        JSNum.lt (submittedSatsAmount r im data.amount) (JSNum.num c.MIN_TIP_SATS) = false →
        JSNum.lt (JSNum.num c.MAX_TIP_SATS) (submittedSatsAmount r im data.amount) = true →
        onSubmit c rate sub im data now outcome =
          Except.error (TipError.tooLarge c.MAX_TIP_SATS)) ∧
      ((submittedSatsAmount r im data.amount).isNaN = false →
        JSNum.lt (submittedSatsAmount r im data.amount) (JSNum.num c.MIN_TIP_SATS) = false →
        JSNum.lt (JSNum.num c.MAX_TIP_SATS) (submittedSatsAmount r im data.amount) = false →
        JSNum.eqb (JSNum.round (submittedSatsAmount r im data.amount))
          (submittedSatsAmount r im data.amount) = false →
        onSubmit c rate sub im data now outcome = Except.error TipError.notWhole))) ∧
    List.Pairwise (fun a b => a ≠ b)
      [TipError.ratesNotLoaded, TipError.alreadySubmitting, TipError.invalidAmount,
       TipError.tooSmall, TipError.tooLarge c.MAX_TIP_SATS, TipError.notWhole] ∧
    (TipError.tooLarge c.MAX_TIP_SATS).message =
      "Tip amount is too large. Please use a value no more than " ++
        toString c.MAX_TIP_SATS ++ " satoshis" ∧
    (∀ e, onSubmit c rate sub im data now outcome = Except.error e →
      eventsOf (onSubmit c rate sub im data now outcome) = []) := by
  refine ⟨?_, ?_, ?_, ?_, rfl, ?_⟩
  · intro hfalse
    cases rate with
    | none => rfl
    | some r =>
      simp only [rateTruthy, decide_eq_false_iff_not, ne_eq, not_not] at hfalse
      simp [onSubmit, validateTip, hfalse]
  · intro htrue hsub
    cases rate with
    | none => simp [rateTruthy] at htrue
    | some r =>
      simp only [rateTruthy, decide_eq_true_eq] at htrue
      simp [onSubmit, validateTip, htrue, hsub]
  · rintro r rfl hr hsub
    refine ⟨?_, ?_, ?_, ?_⟩
    · intro hnan
      simp [onSubmit, validateTip, hr, hsub, hnan]
    · intro hnan hlt
      simp [onSubmit, validateTip, hr, hsub, hnan, hlt]
    · intro hnan hlt hgt
      simp [onSubmit, validateTip, hr, hsub, hnan, hlt, hgt]
    · intro hnan hlt hgt hwhole
      simp [onSubmit, validateTip, hr, hsub, hnan, hlt, hgt, hwhole]
  · simp
  · intro e he
    rw [he]
    rfl

/-- Closed witness for C1: with minimum 1 sat, maximum 1000000 sats, a
loaded rate of 1 and a base-unit amount of 1000001, submission throws
the "too large" error carrying the configured maximum and performs no
event. -/
theorem onSubmit_validation_order_witness :
    onSubmit ⟨1, 1000000, 10, 1⟩ (some 1) false InputMethod.sats
        ⟨JSNum.num 1000001, "USD", none, 3, ExpiryUnit.days, none, "en"⟩ 0 FetchOutcome.threw =
      Except.error (TipError.tooLarge 1000000) ∧
    eventsOf (onSubmit ⟨1, 1000000, 10, 1⟩ (some 1) false InputMethod.sats
        ⟨JSNum.num 1000001, "USD", none, 3, ExpiryUnit.days, none, "en"⟩ 0 FetchOutcome.threw) = [] := by
  have h := onSubmit_validation_order ⟨1, 1000000, 10, 1⟩ (some 1) false InputMethod.sats
    ⟨JSNum.num 1000001, "USD", none, 3, ExpiryUnit.days, none, "en"⟩ 0 FetchOutcome.threw
  have herr := (h.2.2.1 1 rfl (by norm_num) rfl).2.2.1 (by decide) (by decide) (by decide)
  exact ⟨herr, h.2.2.2.2.2 _ herr⟩

end Lightsats
